import Mathlib

/-!
Verification of the TF-IDF retrieval pipeline
(`src/modules/indexador.py` and `src/modules/buscador.py`).

The inverted index is the in-memory form of the `;`-delimited CSV the
indexer reads: each row is a term together with the list of document
ids in which it occurs, duplicates encoding repeated occurrences.
Document ids are modelled as naturals (the index file stores integer
lists); terms are strings.  Floating-point values are modelled as exact
rationals (pure divisions) and reals (logarithms, square roots).
-/

/-- A row of the inverted index: `term; [docId, docId, ...]`. -/
abbrev InvIndex := List (String × List Nat)

namespace Indexer

/-- `self.total_documents` after `process_documents` (indexador.py lines 75-94):
the code increments the counter once for every `doc_id` of every row, so it
tallies the total number of occurrences in the index. -/
def total_documents (idx : InvIndex) : Nat :=
  (idx.map (fun r => r.2.length)).sum

/-- `self.term_document_frequency[t]` after `process_documents` (lines 75-94):
incremented once per `doc_id` listed in each row whose term is `t`, hence the
total number of occurrences of `t` (with multiplicity). -/
def term_document_frequency (idx : InvIndex) (t : String) : Nat :=
  ((idx.filter (fun r => r.1 = t)).map (fun r => r.2.length)).sum

/-- `self.document_terms[d][t]` after `process_documents` (lines 75-94): one
increment for each occurrence of `d` in a row carrying term `t`. -/
def rawFreq (idx : InvIndex) (d : Nat) (t : String) : Nat :=
  ((idx.filter (fun r => r.1 = t)).map (fun r => r.2.count d)).sum

/-- The keys of the dict `self.document_terms[d]`: the distinct terms whose
rows mention `d`, in first-appearance (insertion) order. -/
def termsInDoc (idx : InvIndex) (d : Nat) : List String :=
  ((idx.filter (fun r => d ∈ r.2)).map (fun r => r.1)).dedup

/-- The keys of `self.document_terms`: distinct document ids in
first-appearance order. -/
def docIds (idx : InvIndex) : List Nat :=
  (idx.map (fun r => r.2)).flatten.dedup

/-- `doc_term_count = sum(terms.values())` in `calculate_tf_idf`
(indexador.py line 102): the sum of the raw counts of the distinct terms
present in document `d`. -/
def doc_term_count (idx : InvIndex) (d : Nat) : Nat :=
  ((termsInDoc idx d).map (fun t => rawFreq idx d t)).sum

/-- `tf = count / float(doc_term_count)` (line 104): the raw count divided by
the total occurrence count of the document, as an exact rational. -/
def tf (idx : InvIndex) (d : Nat) (t : String) : ℚ :=
  (rawFreq idx d t : ℚ) / (doc_term_count idx d : ℚ)

/-- `idf = math.log(self.total_documents / (1 + self.term_document_frequency[term]))`
(line 105), with real division and natural logarithm. -/
noncomputable def idf (idx : InvIndex) (t : String) : ℝ :=
  Real.log ((total_documents idx : ℝ) / (1 + (term_document_frequency idx t : ℝ)))

/-- `tf_idf_scores[doc_id][term] = tf * idf` (line 106). -/
noncomputable def weight (idx : InvIndex) (d : Nat) (t : String) : ℝ :=
  (tf idx d t : ℝ) * idf idx t

/-- The return value of `calculate_tf_idf` (lines 96-107): for each document,
the tf-idf score of each of its terms. -/
noncomputable def model (idx : InvIndex) : List (Nat × List (String × ℝ)) :=
  (docIds idx).map (fun d => (d, (termsInDoc idx d).map (fun t => (t, weight idx d t))))

/-- `calculate_tf_idf` with the domain behavior of Python's `math.log` made
explicit: `math.log` raises `ValueError: math domain error` exactly when its
argument is nonpositive, and here the argument `total/(1 + df)` is positive
iff `total_documents` is positive; one evaluation happens per (document, term)
pair of `document_terms`, so the check is taken over those pairs. -/
noncomputable def calculate_tf_idf_checked (idx : InvIndex) :
    Except String (List (Nat × List (String × ℝ))) :=
  if (docIds idx).all
      (fun d => (termsInDoc idx d).all (fun _ => decide (0 < total_documents idx)))
  then Except.ok (model idx)
  else Except.error "ValueError: math domain error"

/-- The mutable attributes of an `Indexer` instance that `run` resets at its
start (indexador.py lines 131-133), as association lists mirroring the Python
dicts in insertion order. -/
structure State where
  document_terms : List (Nat × List (String × Nat))
  term_document_frequency : List (String × Nat)
  total_documents : Nat

/-- The clean state installed by the first three lines of `run`. -/
def freshState : State :=
  { document_terms := [], term_document_frequency := [], total_documents := 0 }

/-- One `+= 1` on a Python dict entry with default `0` (new keys are appended,
existing keys updated in place). -/
def bumpCount {α : Type} [DecidableEq α] (l : List (α × Nat)) (a : α) : List (α × Nat) :=
  if (l.map Prod.fst).contains a then
    l.map (fun p => if p.1 = a then (p.1, p.2 + 1) else p)
  else l ++ [(a, 1)]

/-- `self.document_terms[doc_id][term] += 1` with defaultdict semantics
(indexador.py lines 87-90). -/
def bumpDocTerm (l : List (Nat × List (String × Nat))) (d : Nat) (t : String) :
    List (Nat × List (String × Nat)) :=
  if (l.map Prod.fst).contains d then
    l.map (fun p => if p.1 = d then (p.1, bumpCount p.2 t) else p)
  else l ++ [(d, [(t, 1)])]

/-- The body of `process_documents` (lines 75-94) as a state transformer: for
each row and each listed `doc_id`, bump `total_documents`, the document's term
count and the term's frequency, on top of whatever the state already holds. -/
def process_documents_from (st : State) (idx : InvIndex) : State :=
  idx.foldl
    (fun s row =>
      row.2.foldl
        (fun s' d =>
          { document_terms := bumpDocTerm s'.document_terms d row.1,
            term_document_frequency := bumpCount s'.term_document_frequency row.1,
            total_documents := s'.total_documents + 1 })
        s)
    st

/-- `calculate_tf_idf` (lines 96-107) reading the instance state: iterate the
`document_terms` dict, divide each raw count by the document's total and
multiply by the logarithmic factor computed from the state's counters. -/
noncomputable def calculate_tf_idf_from (st : State) : List (Nat × List (String × ℝ)) :=
  st.document_terms.map
    (fun p =>
      (p.1,
        p.2.map
          (fun q =>
            (q.1,
              ((q.2 : ℝ) / ((p.2.map Prod.snd).sum : ℝ)) *
                Real.log ((st.total_documents : ℝ) /
                  (1 + ((st.term_document_frequency.lookup q.1).getD 0 : ℝ)))))))

/-- The attributes defined on an `Indexer` instance: the fields set in
`__init__` and the methods of the class (with the name-mangled private
reader), per indexador.py lines 16-140. -/
def classAttrs : List String :=
  ["config_file", "input_file", "output_file", "document_terms",
   "term_document_frequency", "total_documents", "read_configuration",
   "_Indexer__read_data", "process_documents", "calculate_tf_idf",
   "write_data", "run"]

/-- The attribute `run` invokes on line 139 to write the model. -/
def finalWriteAttr : String := "write_output"

/-- The rows `write_data` would emit (lines 109-124): one
`docId; term; score` row per model entry. -/
def writeDataRows (scores : List (Nat × List (String × ℝ))) : List (Nat × String × ℝ) :=
  (scores.map (fun p => p.2.map (fun q => (p.1, q.1, q.2)))).flatten

/-- The observable outcome of a batch run: the rows written to the output
file, and either normal completion or the error that aborted the run. -/
structure RunOutcome (ρ : Type) where
  written : List ρ
  result : Except String Unit

/-- `Indexer.run` (lines 126-140) started from an arbitrary instance state:
reset the three mutable attributes, tally the index, compute the scores, then
invoke the attribute named by `finalWriteAttr`; the lookup consults the
instance's attributes and raises `AttributeError` when absent, in which case
nothing is written. -/
noncomputable def runFrom (st : State) (idx : InvIndex) : RunOutcome (Nat × String × ℝ) :=
  let st0 := freshState
  let st1 := process_documents_from st0 idx
  let scores := calculate_tf_idf_from st1
  if finalWriteAttr ∈ classAttrs then
    { written := writeDataRows scores, result := Except.ok () }
  else
    { written := [], result := Except.error "AttributeError: write_output" }

end Indexer

namespace SearchEngine

/-- `__build_unique_terms` (buscador.py lines 119-127): the set of all terms
mentioned by the model, listed in ascending lexicographic order. -/
def unique_terms (model : List (Nat × List (String × ℝ))) : List String :=
  List.insertionSort (fun a b : String => a ≤ b)
    ((model.map (fun p => p.2.map Prod.fst)).flatten.dedup)

/-- `__build_document_vectors` (lines 129-137), one document: entry `i` is the
model's tf-idf score of the `i`-th vocabulary term in this document, `0` when
absent (`terms.get(term, 0)`). -/
def document_vector (ut : List String) (terms : List (String × ℝ)) : List ℝ :=
  ut.map (fun t => (terms.lookup t).getD 0)

/-- `__build_query_vectors` (lines 139-147), one query: entry `i` is `1` when
the `i`-th vocabulary term occurs among the query's tokens, else `0`. -/
def query_vector (ut : List String) (qterms : List String) : List ℝ :=
  ut.map (fun t => if t ∈ qterms then (1 : ℝ) else 0)

/-- `np.dot` of two vectors. -/
def dotProduct (v1 v2 : List ℝ) : ℝ :=
  (List.zipWith (fun a b => a * b) v1 v2).sum

/-- `np.linalg.norm`: the Euclidean norm. -/
noncomputable def vnorm (v : List ℝ) : ℝ :=
  Real.sqrt ((v.map (fun x => x ^ 2)).sum)

/-- `__calculate_similarity` (lines 149-159): the cosine of the two vectors,
defined as `0` when the product of the norms is `0`. -/
noncomputable def calculate_similarity (v1 v2 : List ℝ) : ℝ :=
  if vnorm v1 * vnorm v2 ≠ 0 then dotProduct v1 v2 / (vnorm v1 * vnorm v2) else 0

/-- The comparison `sorted(..., key=lambda x: x[1], reverse=True)` induces on
scored documents: descending similarity score. -/
def scoreOrder : (Nat × ℝ) → (Nat × ℝ) → Prop := fun a b => b.2 ≤ a.2

noncomputable instance : DecidableRel scoreOrder :=
  fun a b => inferInstanceAs (Decidable (b.2 ≤ a.2))

instance : IsTotal (Nat × ℝ) scoreOrder :=
  ⟨fun a b => le_total b.2 a.2⟩

instance : IsTrans (Nat × ℝ) scoreOrder :=
  ⟨fun _ _ _ hab hbc => le_trans hbc hab⟩

/-- The stable descending-by-score sort of buscador.py line 114. -/
noncomputable def sortDesc (l : List (Nat × ℝ)) : List (Nat × ℝ) :=
  List.insertionSort scoreOrder l

/-- The `scores` dict of `__process_data` (lines 108-111): every document of
the model scored against one query vector. -/
noncomputable def scoresFor (dvs : List (Nat × List ℝ)) (qv : List ℝ) : List (Nat × ℝ) :=
  dvs.map (fun p => (p.1, calculate_similarity qv p.2))

/-- `__process_data` (lines 95-117): build the vocabulary and the document
vectors once, then, for each query, score every document and store the scores
sorted by descending similarity. -/
noncomputable def process_data (model : List (Nat × List (String × ℝ)))
    (queries : List (Nat × List String)) : List (Nat × List (Nat × ℝ)) :=
  let ut := unique_terms model
  let dvs := model.map (fun p => (p.1, document_vector ut p.2))
  queries.map (fun q => (q.1, sortDesc (scoresFor dvs (query_vector ut q.2))))

/-- The rows `__write_data` (lines 161-178) emits for one query: the ranking
counter starts at `1` and increments once per stored (document, score) pair,
giving rows `queryId; [rank, docId, score]`. -/
def rankRows (qid : Nat) (res : List (Nat × ℝ)) : List (Nat × Nat × Nat × ℝ) :=
  ((List.range' 1 res.length).zip res).map (fun p => (qid, p.1, p.2.1, p.2.2))

/-- All rows `__write_data` emits: the per-query row blocks in query order. -/
def write_rows (results : List (Nat × List (Nat × ℝ))) : List (Nat × Nat × Nat × ℝ) :=
  (results.map (fun p => rankRows p.1 p.2)).flatten

/-- Set a key of a Python dict: update in place when present, else append. -/
def setAssoc {α β : Type} [DecidableEq α] (l : List (α × β)) (a : α) (b : β) :
    List (α × β) :=
  if (l.map Prod.fst).contains a then
    l.map (fun p => if p.1 = a then (p.1, b) else p)
  else l ++ [(a, b)]

/-- `self.model[doc_id][term] = float(score)` with defaultdict semantics
(buscador.py line 59). -/
def setDocTerm (l : List (Nat × List (String × ℝ))) (d : Nat) (t : String) (s : ℝ) :
    List (Nat × List (String × ℝ)) :=
  if (l.map Prod.fst).contains d then
    l.map (fun p => if p.1 = d then (p.1, setAssoc p.2 t s) else p)
  else l ++ [(d, [(t, s)])]

/-- The mutable attributes of a `SearchEngine` instance that `run` resets at
its start (buscador.py lines 185-188). -/
structure State where
  unique_terms : List String
  model : List (Nat × List (String × ℝ))
  queries : List (Nat × List String)
  results : List (Nat × List (Nat × ℝ))

/-- The clean state installed by the first four lines of `run`. -/
def freshState : State :=
  { unique_terms := [], model := [], queries := [], results := [] }

/-- `__read_model` (lines 47-68) as a state transformer over the parsed rows
`docId; term; score` of the model file: each row is stored into the `model`
dict on top of whatever it already holds. -/
def read_model_from (st : State) (rows : List (Nat × String × ℝ)) : State :=
  { st with model := rows.foldl (fun m r => setDocTerm m r.1 r.2.1 r.2.2) st.model }

/-- `__read_queries` (lines 70-93) as a state transformer over the parsed
query rows (id, tokenized text): each row is stored into the `queries` dict. -/
def read_queries_from (st : State) (rows : List (Nat × List String)) : State :=
  { st with queries := rows.foldl (fun q r => setAssoc q r.1 r.2) st.queries }

/-- `SearchEngine.run` (lines 180-196) started from an arbitrary instance
state: reset the four mutable attributes, read the model and the queries,
process the queries and write every ranked row. -/
noncomputable def runFrom (st : State) (modelRows : List (Nat × String × ℝ))
    (queryRows : List (Nat × List String)) : Indexer.RunOutcome (Nat × Nat × Nat × ℝ) :=
  let st0 := freshState
  let st1 := read_model_from st0 modelRows
  let st2 := read_queries_from st1 queryRows
  let results := process_data st2.model st2.queries
  { written := write_rows results, result := Except.ok () }

end SearchEngine

/-! Definitions written from the spec's words, used only to compare the
code's tallies and formulas against what the spec claims they compute. -/

/-- Modelled from the spec: `DocumentFrequency`: "Term → count of *distinct*
documents containing it" (spec section 3). -/
def specDocumentFrequency (idx : InvIndex) (t : String) : Nat :=
  (((idx.filter (fun r => r.1 = t)).map (fun r => r.2)).flatten.dedup).length

/-- Modelled from the spec: `TotalDocuments`: "count of distinct DocumentIds
observed" (spec section 3). -/
def specTotalDocuments (idx : InvIndex) : Nat :=
  (Indexer.docIds idx).length

/-- Modelled from the spec: `tf(t,d) = rawFreq(t,d) / max_over_terms_in_d(rawFreq)`
(spec section 4.1 step 4, maximum-normalized term frequency). -/
def specTf (idx : InvIndex) (d : Nat) (t : String) : ℚ :=
  (Indexer.rawFreq idx d t : ℚ) /
    (((Indexer.termsInDoc idx d).map (fun u => Indexer.rawFreq idx d u)).foldr max 0 : ℚ)

/-- Modelled from the spec: `idf(t) = ln(TotalDocuments / DocumentFrequency(t))`
(spec section 4.1 step 5), with the distinct-document counts of section 3. -/
noncomputable def specIdf (idx : InvIndex) (t : String) : ℝ :=
  Real.log ((specTotalDocuments idx : ℝ) / (specDocumentFrequency idx t : ℝ))

/-! Concrete indexes used as counterexamples and witnesses. -/

/-- Index with one document `1` holding term `A` twice and `B` once. -/
def exIndexAB : InvIndex := [("A", [1, 1]), ("B", [1])]

/-- Index with a single occurrence: term `A` in document `1`. -/
def exIndexSingle : InvIndex := [("A", [1])]

/-- Index where term `A` occurs twice in the single document `1`. -/
def exIndexDup : InvIndex := [("A", [1, 1])]

/-- A one-document, one-term model with tf-idf score `1`, used as witness
input for the ranking claims. -/
def exModelOne : List (Nat × List (String × ℝ)) := [(7, [("A", 1)])]

/-- A one-query set used as witness input for the ranking claims. -/
def exQueriesOne : List (Nat × List String) := [(3, ["A"])]

/-! Small arithmetic helpers about list sums. -/

lemma nat_mem_le_sum {l : List ℕ} {a : ℕ} (h : a ∈ l) : a ≤ l.sum := by
  induction l with
  | nil => cases h
  | cons b bs ih =>
    rcases List.mem_cons.mp h with rfl | hb
    · simp only [List.sum_cons]; omega
    · have := ih hb
      simp only [List.sum_cons]; omega

lemma nat_sublist_sum_le {l₁ l₂ : List ℕ} (h : l₁.Sublist l₂) : l₁.sum ≤ l₂.sum := by
  induction h with
  | slnil => exact le_refl _
  | cons a _ ih => simp only [List.sum_cons]; omega
  | cons₂ a _ ih => simp only [List.sum_cons]; omega
/-- The claim C1 fails on the code: in `exIndexAB` document `1` has raw counts
`A ↦ 2, B ↦ 1`; the code divides by the sum `3`, not the maximum `2`, so
`tf(A,1) = 2/3` differs from the max-normalized `2/2 = 1` and the maximum tf
over the document's terms is `2/3`, not `1`. -/
theorem tf_not_max_normalized_cx :
    Indexer.tf exIndexAB 1 "A" ≠ specTf exIndexAB 1 "A" ∧
    ((Indexer.termsInDoc exIndexAB 1).map (fun t => Indexer.tf exIndexAB 1 t)).foldr max 0 ≠ 1 := by
  have ht : Indexer.termsInDoc exIndexAB 1 = ["A", "B"] := by decide
  have hA : Indexer.rawFreq exIndexAB 1 "A" = 2 := by decide
  have hB : Indexer.rawFreq exIndexAB 1 "B" = 1 := by decide
  have hc : Indexer.doc_term_count exIndexAB 1 = 3 := by decide
  constructor
  · rw [Indexer.tf, specTf, hA, hc, ht]
    simp only [List.map_cons, List.map_nil, List.foldr_cons, List.foldr_nil, hA, hB]
    norm_num
  · rw [ht]
    simp only [List.map_cons, List.map_nil, List.foldr_cons, List.foldr_nil,
      Indexer.tf, hA, hB, hc]
    norm_num

/-- C1 (amended): the code normalizes term frequency by the sum of the raw
counts of the document's distinct terms, not by their maximum; each tf of a
term present in the document still lies in `(0, 1]`, but the maximum tf over a
document's terms need not be `1`. -/
theorem tf_sum_normalized_bounds (idx : InvIndex) (d : Nat) (t : String)
    (h : t ∈ Indexer.termsInDoc idx d) :
    0 < Indexer.tf idx d t ∧ Indexer.tf idx d t ≤ 1 := by
  -- Extract a row of the index carrying term `t` and mentioning document `d`.
  obtain ⟨r, hrf, hrt⟩ := List.mem_map.mp (List.mem_dedup.mp h)
  have hrmem : r ∈ idx ∧ d ∈ r.2 := by
    have := List.mem_filter.mp hrf
    exact ⟨this.1, by simpa using this.2⟩
  -- The raw count of `t` in `d` is at least the count contributed by that row.
  have hraw : 1 ≤ Indexer.rawFreq idx d t := by
    have hfil : r ∈ idx.filter (fun r => r.1 = t) := by
      refine List.mem_filter.mpr ⟨hrmem.1, ?_⟩
      simp [hrt]
    have hcount : 1 ≤ r.2.count d := List.one_le_count_iff.mpr hrmem.2
    have hmem2 : r.2.count d ∈ (idx.filter (fun r => r.1 = t)).map (fun r => r.2.count d) :=
      List.mem_map_of_mem _ hfil
    exact le_trans hcount (nat_mem_le_sum hmem2)
  -- The document's total count dominates the raw count of `t`.
  have hle : Indexer.rawFreq idx d t ≤ Indexer.doc_term_count idx d := by
    have : Indexer.rawFreq idx d t ∈
        (Indexer.termsInDoc idx d).map (fun u => Indexer.rawFreq idx d u) :=
      List.mem_map_of_mem _ h
    exact nat_mem_le_sum this
  have hposc : 0 < Indexer.doc_term_count idx d := lt_of_lt_of_le hraw hle
  constructor
  · apply div_pos
    · exact_mod_cast hraw
    · exact_mod_cast hposc
  · rw [Indexer.tf, div_le_one (by exact_mod_cast hposc)]
    exact_mod_cast hle

/-- Witness for `tf_sum_normalized_bounds` at `exIndexAB`, document `1`,
term `B`. -/
theorem tf_sum_normalized_bounds_witness :
    "B" ∈ Indexer.termsInDoc exIndexAB 1 ∧
    (0 < Indexer.tf exIndexAB 1 "B" ∧ Indexer.tf exIndexAB 1 "B" ≤ 1) :=
  ⟨by decide, tf_sum_normalized_bounds exIndexAB 1 "B" (by decide)⟩

/-- The claim C2 fails on the code: in `exIndexSingle` the only document `1`
contains `A`, so the spec formula gives `idf(A) = ln(1/1) = 0`; the code's
`math.log(total_documents / (1 + term_document_frequency))` instead gives
`ln(1/2) < 0`, so a term occurring in every document does not get idf `0`. -/
theorem idf_formula_cx :
    Indexer.docIds exIndexSingle = [1] ∧
    0 < Indexer.rawFreq exIndexSingle 1 "A" ∧
    specIdf exIndexSingle "A" = 0 ∧
    Indexer.idf exIndexSingle "A" < 0 := by
  refine ⟨by decide, by decide, ?_, ?_⟩
  · have h1 : specTotalDocuments exIndexSingle = 1 := by decide
    have h2 : specDocumentFrequency exIndexSingle "A" = 1 := by decide
    rw [specIdf, h1, h2]
    norm_num
  · have h1 : Indexer.total_documents exIndexSingle = 1 := by decide
    have h2 : Indexer.term_document_frequency exIndexSingle "A" = 1 := by decide
    rw [Indexer.idf, h1, h2]
    have : ((1 : ℕ) : ℝ) / (1 + ((1 : ℕ) : ℝ)) = 1 / 2 := by norm_num
    rw [this]
    exact Real.log_neg (by norm_num) (by norm_num)

/-- C2 (amended): the code computes
`idf(t) = ln(total_documents / (1 + term_document_frequency(t)))`, where both
counters tally occurrences with multiplicity; consequently, when `t` accounts
for every occurrence in a non-empty index (so `df(t) = total ≥ 1`), its idf is
`ln(total/(total+1)) < 0` rather than `0`, and on a zero-occurrence index the
tf-idf loop never evaluates the logarithm, so no failure occurs. -/
theorem idf_neg_of_df_eq_total (idx : InvIndex) (t : String)
    (h0 : 0 < Indexer.total_documents idx)
    (heq : Indexer.term_document_frequency idx t = Indexer.total_documents idx) :
    Indexer.idf idx t < 0 := by
  rw [Indexer.idf, heq]
  set n : ℕ := Indexer.total_documents idx with hn
  have hnpos : (0 : ℝ) < (n : ℝ) := by exact_mod_cast h0
  apply Real.log_neg
  · apply div_pos hnpos
    linarith
  · rw [div_lt_one (by linarith)]
    linarith

/-- Witness for `idf_neg_of_df_eq_total` at `exIndexSingle`, term `A`. -/
theorem idf_neg_of_df_eq_total_witness :
    0 < Indexer.total_documents exIndexSingle ∧
    Indexer.term_document_frequency exIndexSingle "A" =
      Indexer.total_documents exIndexSingle ∧
    Indexer.idf exIndexSingle "A" < 0 :=
  ⟨by decide, by decide, idf_neg_of_df_eq_total exIndexSingle "A" (by decide) (by decide)⟩

/-- The claim C3 fails on the code: in `exIndexDup` term `A` occurs twice in
the single document `1`, yet the code's `term_document_frequency` is `2`
(occurrences, not distinct documents, which number `1`), and its
`total_documents` is `2` although only one distinct document exists. -/
theorem df_counts_occurrences_cx :
    Indexer.term_document_frequency exIndexDup "A" ≠ specDocumentFrequency exIndexDup "A" ∧
    Indexer.total_documents exIndexDup ≠ specTotalDocuments exIndexDup := by
  constructor <;> decide

/-- C3 (amended): `term_document_frequency(t)` and `total_documents` tally
occurrences with multiplicity rather than distinct documents, so they differ
from the spec's distinct counts; nevertheless the invariant
`0 < DocumentFrequency(t) ≤ TotalDocuments` still holds for every term that
heads a row with a non-empty document list. -/
theorem df_le_total_of_present (idx : InvIndex) (r : String × List Nat)
    (hr : r ∈ idx) (hne : r.2 ≠ []) :
    0 < Indexer.term_document_frequency idx r.1 ∧
    Indexer.term_document_frequency idx r.1 ≤ Indexer.total_documents idx := by
  constructor
  · have hfil : r ∈ idx.filter (fun s => s.1 = r.1) :=
      List.mem_filter.mpr ⟨hr, by simp⟩
    have hlen : 1 ≤ r.2.length := by
      cases h2 : r.2 with
      | nil => exact absurd h2 hne
      | cons a l => simp [h2]
    have hmem : r.2.length ∈ (idx.filter (fun s => s.1 = r.1)).map (fun s => s.2.length) :=
      List.mem_map_of_mem _ hfil
    exact lt_of_lt_of_le hlen (nat_mem_le_sum hmem)
  · apply nat_sublist_sum_le
    exact List.Sublist.map _ (List.filter_sublist idx)

/-- Witness for `df_le_total_of_present` at `exIndexDup`, row `("A", [1, 1])`. -/
theorem df_le_total_of_present_witness :
    ("A", [1, 1]) ∈ exIndexDup ∧ ("A", ([1, 1] : List Nat)).2 ≠ [] ∧
    (0 < Indexer.term_document_frequency exIndexDup "A" ∧
      Indexer.term_document_frequency exIndexDup "A" ≤ Indexer.total_documents exIndexDup) :=
  ⟨by decide, by decide, df_le_total_of_present exIndexDup ("A", [1, 1]) (by decide) (by decide)⟩

/-- C4: for every starting state and every index, `Indexer.run` ends in an
`AttributeError` and writes nothing: its final step looks up the attribute
`write_output`, which is not among the attributes of the class (the writing
method is named `write_data`), so the run never completes successfully. -/
theorem indexer_run_attribute_error (st : Indexer.State) (idx : InvIndex) :
    (Indexer.runFrom st idx).result = Except.error "AttributeError: write_output" ∧
    (Indexer.runFrom st idx).written = [] := by
  have hne : Indexer.finalWriteAttr ∉ Indexer.classAttrs := by decide
  simp only [Indexer.runFrom]
  rw [if_neg hne]
  exact ⟨rfl, rfl⟩

/-- The claim C5 fails on the code: on the empty (zero-document) inverted
index, `calculate_tf_idf` raises nothing at all — the loop over
`document_terms` has nothing to iterate, `math.log` is never evaluated, and
the builder silently returns an empty model instead of an ArithmeticFault. -/
theorem empty_index_silent_cx :
    Indexer.calculate_tf_idf_checked [] =
      Except.ok ([] : List (Nat × List (String × ℝ))) ∧
    Indexer.total_documents [] = 0 := by
  constructor
  · have hcond : ((Indexer.docIds ([] : InvIndex)).all
        (fun d => (Indexer.termsInDoc [] d).all
          (fun _ => decide (0 < Indexer.total_documents [])))) = true := by
      rfl
    rw [Indexer.calculate_tf_idf_checked, if_pos hcond]
    rfl
  · rfl

/-- C5 (amended): the model builder contains no arithmetic-fault detection and
never needs one: every document id of `document_terms` comes from some row, so
whenever the tf-idf loop runs at all `total_documents` is positive and every
`math.log` argument is strictly positive; on a zero-document index the loop
body never executes and the builder silently returns the empty model. -/
theorem calculate_tf_idf_never_faults (idx : InvIndex) :
    Indexer.calculate_tf_idf_checked idx = Except.ok (Indexer.model idx) := by
  have hcond : ((Indexer.docIds idx).all
      (fun d => (Indexer.termsInDoc idx d).all
        (fun _ => decide (0 < Indexer.total_documents idx)))) = true := by
    rw [List.all_eq_true]
    intro d hd
    rw [List.all_eq_true]
    intro t _
    rw [decide_eq_true_eq]
    rw [Indexer.docIds, List.mem_dedup, List.mem_flatten] at hd
    obtain ⟨l, hl, hdl⟩ := hd
    obtain ⟨r, hr, rfl⟩ := List.mem_map.mp hl
    have h1 : 1 ≤ r.2.length := by
      cases h2 : r.2 with
      | nil => rw [h2] at hdl; cases hdl
      | cons a as => simp [h2]
    have hmem : r.2.length ∈ idx.map (fun s => s.2.length) :=
      List.mem_map_of_mem _ hr
    exact lt_of_lt_of_le h1 (nat_mem_le_sum hmem)
  rw [Indexer.calculate_tf_idf_checked, if_pos hcond]

/-- C10: both batch runs discard the instance state they start from — the
outcome of `Indexer.run` depends only on the index read, and the outcome of
`SearchEngine.run` depends only on the model and query files read — so two
runs on identical inputs produce identical outputs and no state leaks between
runs. -/
theorem runs_reset_state_and_are_deterministic :
    (∀ (s1 s2 : Indexer.State) (idx : InvIndex),
        Indexer.runFrom s1 idx = Indexer.runFrom s2 idx) ∧
    (∀ (t1 t2 : SearchEngine.State) (modelRows : List (Nat × String × ℝ))
        (queryRows : List (Nat × List String)),
        SearchEngine.runFrom t1 modelRows queryRows =
          SearchEngine.runFrom t2 modelRows queryRows) :=
  ⟨fun _ _ _ => rfl, fun _ _ _ _ => rfl⟩

/-- C8: whenever either vector has norm `0`, the guard
`if norm_product != 0` fails and the similarity is defined to be exactly `0`;
the function is total, so it neither fails nor produces an undefined value. -/
theorem similarity_zero_of_zero_norm (v1 v2 : List ℝ)
    (h : SearchEngine.vnorm v1 = 0 ∨ SearchEngine.vnorm v2 = 0) :
    SearchEngine.calculate_similarity v1 v2 = 0 := by
  have hprod : SearchEngine.vnorm v1 * SearchEngine.vnorm v2 = 0 := by
    rcases h with h | h <;> rw [h] <;> ring
  rw [SearchEngine.calculate_similarity, if_neg (not_not_intro hprod)]

/-- Witness for `similarity_zero_of_zero_norm` at the all-zero vector `[0]`
against `[1]`. -/
theorem similarity_zero_of_zero_norm_witness :
    (SearchEngine.vnorm [(0 : ℝ)] = 0 ∨ SearchEngine.vnorm [(1 : ℝ)] = 0) ∧
    SearchEngine.calculate_similarity [(0 : ℝ)] [(1 : ℝ)] = 0 := by
  have h0 : SearchEngine.vnorm [(0 : ℝ)] = 0 := by
    simp [SearchEngine.vnorm]
  exact ⟨Or.inl h0, similarity_zero_of_zero_norm _ _ (Or.inl h0)⟩

/-- Entry `i` of a query vector is the presence bit of the `i`-th vocabulary
term, and entry `i` of a document vector is the model's stored score of that
term (default `0`). -/
lemma getD_query_and_document_vector (ut qts : List String)
    (scores : List (String × ℝ)) (i : Nat) (h : i < ut.length) :
    (SearchEngine.query_vector ut qts).getD i 0 =
      (if ut.getD i "" ∈ qts then (1 : ℝ) else 0) ∧
    (SearchEngine.document_vector ut scores).getD i 0 =
      ((scores.lookup (ut.getD i "")).getD 0) := by
  induction ut generalizing i with
  | nil => exact absurd h (by simp)
  | cons t ts ih =>
    cases i with
    | zero =>
      simp [SearchEngine.query_vector, SearchEngine.document_vector]
    | succ j =>
      have hj : j < ts.length := by simpa using h
      simpa [SearchEngine.query_vector, SearchEngine.document_vector] using ih j hj

/-- C9: query vectors are binary — entry `i` is `1` exactly when the `i`-th
vocabulary term occurs among the query's tokens and `0` otherwise, with no
frequency or idf weighting — while document vectors carry the model's tf-idf
scores (0 for absent terms). -/
theorem query_vectors_binary_document_vectors_weighted (ut qts : List String)
    (scores : List (String × ℝ)) (i : Nat) (h : i < ut.length) :
    (SearchEngine.query_vector ut qts).getD i 0 =
      (if ut.getD i "" ∈ qts then (1 : ℝ) else 0) ∧
    ((SearchEngine.query_vector ut qts).getD i 0 = 1 ∨
      (SearchEngine.query_vector ut qts).getD i 0 = 0) ∧
    (SearchEngine.document_vector ut scores).getD i 0 =
      ((scores.lookup (ut.getD i "")).getD 0) := by
  obtain ⟨h1, h2⟩ := getD_query_and_document_vector ut qts scores i h
  refine ⟨h1, ?_, h2⟩
  by_cases hc : ut.getD i "" ∈ qts
  · left
    rw [h1, if_pos hc]
  · right
    rw [h1, if_neg hc]

/-- Witness for `query_vectors_binary_document_vectors_weighted` on the
vocabulary `["A", "B"]`, the query tokens `["B"]` and a one-entry score
table, at coordinate `1`. -/
theorem query_vectors_binary_document_vectors_weighted_witness :
    (1 : Nat) < (["A", "B"] : List String).length ∧
    ((SearchEngine.query_vector ["A", "B"] ["B"]).getD 1 0 =
        (if (["A", "B"] : List String).getD 1 "" ∈ (["B"] : List String)
          then (1 : ℝ) else 0) ∧
      ((SearchEngine.query_vector ["A", "B"] ["B"]).getD 1 0 = 1 ∨
        (SearchEngine.query_vector ["A", "B"] ["B"]).getD 1 0 = 0) ∧
      (SearchEngine.document_vector ["A", "B"] [("B", (2 : ℝ))]).getD 1 0 =
        (((([("B", (2 : ℝ))]) : List (String × ℝ)).lookup
            ((["A", "B"] : List String).getD 1 "")).getD 0)) :=
  ⟨by decide,
   query_vectors_binary_document_vectors_weighted ["A", "B"] ["B"]
     [("B", (2 : ℝ))] 1 (by decide)⟩

/-- C7: for every query of the query set, `__process_data` stores a result
list that scores every document of the model, sorted by descending
similarity, and `__write_data` assigns it ranks `1..N` where `N` is the
number of documents in the model — a complete ranking with no truncation. -/
theorem search_results_complete_ranking
    (model : List (Nat × List (String × ℝ))) (queries : List (Nat × List String))
    (qid : Nat) (qts : List String) (h : (qid, qts) ∈ queries) :
    ∃ res,
      (qid, res) ∈ SearchEngine.process_data model queries ∧
      res.length = model.length ∧
      (res.map Prod.fst).Perm (model.map Prod.fst) ∧
      List.Sorted SearchEngine.scoreOrder res ∧
      (SearchEngine.rankRows qid res).map (fun row => row.2.1) =
        List.range' 1 model.length := by
  classical
  set ut := SearchEngine.unique_terms model with hut
  set dvs := model.map (fun p => (p.1, SearchEngine.document_vector ut p.2)) with hdvs
  set S := SearchEngine.scoresFor dvs (SearchEngine.query_vector ut qts) with hS
  have hlenS : S.length = model.length := by
    rw [hS, SearchEngine.scoresFor, List.length_map, hdvs, List.length_map]
  have hsorted : (SearchEngine.sortDesc S).length = model.length := by
    rw [SearchEngine.sortDesc, List.length_insertionSort, hlenS]
  refine ⟨SearchEngine.sortDesc S, ?_, hsorted, ?_, ?_, ?_⟩
  · simp only [SearchEngine.process_data]
    exact List.mem_map.mpr ⟨(qid, qts), h, rfl⟩
  · have hp : (SearchEngine.sortDesc S).Perm S :=
      List.perm_insertionSort SearchEngine.scoreOrder S
    have hfst : S.map Prod.fst = model.map Prod.fst := by
      rw [hS, SearchEngine.scoresFor, List.map_map, hdvs, List.map_map]
      rfl
    exact hfst ▸ hp.map Prod.fst
  · exact List.sorted_insertionSort SearchEngine.scoreOrder S
  · rw [SearchEngine.rankRows, List.map_map]
    have hcmp :
        ((fun row : Nat × Nat × Nat × ℝ => row.2.1) ∘
          (fun p : Nat × Nat × ℝ => (qid, p.1, p.2.1, p.2.2))) =
          Prod.fst := by
      funext p
      rfl
    rw [hcmp, List.map_fst_zip _ _ (by rw [List.length_range', hsorted])]
    rw [hsorted]

/-- Witness for `search_results_complete_ranking` on the one-document model
`exModelOne` and the one-query set `exQueriesOne`. -/
theorem search_results_complete_ranking_witness :
    ((3 : Nat), (["A"] : List String)) ∈ exQueriesOne ∧
    (∃ res,
      (3, res) ∈ SearchEngine.process_data exModelOne exQueriesOne ∧
      res.length = exModelOne.length ∧
      (res.map Prod.fst).Perm (exModelOne.map Prod.fst) ∧
      List.Sorted SearchEngine.scoreOrder res ∧
      (SearchEngine.rankRows 3 res).map (fun row => row.2.1) =
        List.range' 1 exModelOne.length) :=
  ⟨by decide,
   search_results_complete_ranking exModelOne exQueriesOne 3 ["A"] (by decide)⟩

lemma sum_sq_nonneg (v : List ℝ) : 0 ≤ (v.map (fun x => x ^ 2)).sum := by
  induction v with
  | nil => simp
  | cons x xs ih =>
    simp only [List.map_cons, List.sum_cons]
    have := sq_nonneg x
    linarith

lemma cauchy_step (a b s A B : ℝ) (hA : 0 ≤ A) (hB : 0 ≤ B) (hs : s ^ 2 ≤ A * B) :
    (a * b + s) ^ 2 ≤ (a ^ 2 + A) * (b ^ 2 + B) := by
  rcases eq_or_lt_of_le hB with hB0 | hBpos
  · have hs0 : s = 0 := by
      have h1 : s ^ 2 ≤ 0 := by rw [← hB0] at hs; simpa using hs
      have h3 : s ^ 2 = 0 := le_antisymm h1 (sq_nonneg s)
      exact (pow_eq_zero_iff (by norm_num : (2 : ℕ) ≠ 0)).mp h3
    subst hs0
    rw [← hB0]
    nlinarith [mul_nonneg hA (sq_nonneg b)]
  · nlinarith [sq_nonneg (a * B - b * s),
      mul_nonneg (add_nonneg (sq_nonneg b) hB) (sub_nonneg.mpr hs), hBpos]

lemma dot_sq_le (v1 v2 : List ℝ) :
    (SearchEngine.dotProduct v1 v2) ^ 2 ≤
      ((v1.map (fun x => x ^ 2)).sum) * ((v2.map (fun x => x ^ 2)).sum) := by
  induction v1 generalizing v2 with
  | nil => simp [SearchEngine.dotProduct]
  | cons x xs ih =>
    cases v2 with
    | nil => simp [SearchEngine.dotProduct]
    | cons y ys =>
      have hih := ih ys
      simp only [SearchEngine.dotProduct] at hih
      simp only [SearchEngine.dotProduct, List.zipWith_cons_cons, List.sum_cons,
        List.map_cons]
      exact cauchy_step x y _ _ _ (sum_sq_nonneg xs) (sum_sq_nonneg ys) hih

/-- C6 (amended): the cosine similarity always lies in `[-1, 1]` by the
Cauchy-Schwarz inequality; the lower bound `0` claimed by the spec does not
hold in general because document weights built by the indexer can be
negative (the idf factor can be negative). -/
theorem similarity_in_closed_unit_interval (v1 v2 : List ℝ) :
    -1 ≤ SearchEngine.calculate_similarity v1 v2 ∧
    SearchEngine.calculate_similarity v1 v2 ≤ 1 := by
  rw [SearchEngine.calculate_similarity]
  by_cases h : SearchEngine.vnorm v1 * SearchEngine.vnorm v2 ≠ 0
  · rw [if_pos h]
    have h1 : 0 ≤ SearchEngine.vnorm v1 := Real.sqrt_nonneg _
    have h2 : 0 ≤ SearchEngine.vnorm v2 := Real.sqrt_nonneg _
    have hpos : 0 < SearchEngine.vnorm v1 * SearchEngine.vnorm v2 :=
      lt_of_le_of_ne (mul_nonneg h1 h2) (Ne.symm h)
    have habs : |SearchEngine.dotProduct v1 v2| ≤
        SearchEngine.vnorm v1 * SearchEngine.vnorm v2 := by
      have hsq := Real.sqrt_le_sqrt (dot_sq_le v1 v2)
      rw [Real.sqrt_sq_eq_abs, Real.sqrt_mul (sum_sq_nonneg v1)] at hsq
      exact hsq
    have hq : |SearchEngine.dotProduct v1 v2 /
        (SearchEngine.vnorm v1 * SearchEngine.vnorm v2)| ≤ 1 := by
      rw [abs_div, abs_of_pos hpos]
      exact div_le_one_of_le₀ habs (le_of_lt hpos)
    exact abs_le.mp hq
  · rw [if_neg h]
    norm_num

/-- The claim C6 fails on the code: the model built from `exIndexSingle`
assigns document `1` the single weight `tf * idf = 1 * ln(1/2) < 0`, so the
cosine similarity between the query vector of query `"A"` and that document's
vector is negative (it equals `-1`), outside the claimed range `[0, 1]`. -/
theorem similarity_negative_cx :
    SearchEngine.calculate_similarity
      (SearchEngine.query_vector
        (SearchEngine.unique_terms (Indexer.model exIndexSingle)) ["A"])
      (SearchEngine.document_vector
        (SearchEngine.unique_terms (Indexer.model exIndexSingle))
        (((Indexer.model exIndexSingle).lookup 1).getD [])) < 0 := by
  have htf : Indexer.tf exIndexSingle 1 "A" = 1 := by
    have h1 : Indexer.rawFreq exIndexSingle 1 "A" = 1 := by decide
    have h2 : Indexer.doc_term_count exIndexSingle 1 = 1 := by decide
    rw [Indexer.tf, h1, h2]
    norm_num
  have hidf : Indexer.idf exIndexSingle "A" = Real.log (1 / 2) := by
    have h1 : Indexer.total_documents exIndexSingle = 1 := by decide
    have h2 : Indexer.term_document_frequency exIndexSingle "A" = 1 := by decide
    rw [Indexer.idf, h1, h2]
    norm_num
  have hw : Indexer.weight exIndexSingle 1 "A" = Real.log (1 / 2) := by
    rw [Indexer.weight, htf, hidf]
    norm_num
  have hm : Indexer.model exIndexSingle = [(1, [("A", Real.log (1 / 2))])] := by
    have hd : Indexer.docIds exIndexSingle = [1] := by decide
    have ht : Indexer.termsInDoc exIndexSingle 1 = ["A"] := by decide
    rw [Indexer.model, hd]
    simp [ht, hw]
  have hut : SearchEngine.unique_terms (Indexer.model exIndexSingle) = ["A"] := by
    rw [hm, SearchEngine.unique_terms]
    simp
  have hqv : SearchEngine.query_vector ["A"] ["A"] = [(1 : ℝ)] := by
    simp [SearchEngine.query_vector]
  have hdv : SearchEngine.document_vector ["A"]
      (((Indexer.model exIndexSingle).lookup 1).getD []) = [Real.log (1 / 2)] := by
    rw [hm]
    simp [SearchEngine.document_vector]
  have hlg : Real.log (1 / 2) < 0 := Real.log_neg (by norm_num) (by norm_num)
  have hn1 : SearchEngine.vnorm [(1 : ℝ)] = 1 := by
    simp [SearchEngine.vnorm]
  have hn2 : SearchEngine.vnorm [Real.log (1 / 2)] = -Real.log (1 / 2) := by
    rw [SearchEngine.vnorm]
    have hsum : (([Real.log (1 / 2)].map (fun x => x ^ 2)).sum) =
        (Real.log (1 / 2)) ^ 2 := by
      simp
    rw [hsum, Real.sqrt_sq_eq_abs]
    exact abs_of_neg hlg
  have hdot : SearchEngine.dotProduct [(1 : ℝ)] [Real.log (1 / 2)] =
      Real.log (1 / 2) := by
    simp [SearchEngine.dotProduct]
  have hcond : SearchEngine.vnorm [(1 : ℝ)] *
      SearchEngine.vnorm [Real.log (1 / 2)] ≠ 0 := by
    rw [hn1, hn2, one_mul]
    exact ne_of_gt (by linarith)
  rw [hut, hqv, hdv, SearchEngine.calculate_similarity, if_pos hcond, hdot, hn1, hn2,
    one_mul, div_neg, div_self (ne_of_lt hlg)]
  norm_num
